import Mathlib

/-! Shallow embedding of src/app.py: a small Flask RAG backend with an
in-memory conversation store, retrieval-tool construction for two
alternative backends, answer/citation extraction from the remote
response, and the HTTP handlers.  Python strings are Lean `String`,
`time.time()` instants are `Nat`, optional/None-able values are
`Option`, the module-level `conversations` dict is an explicit
association list threaded through the operations, and the remote
service is an oracle parameter. -/

/-- Characters stripped by Python str.strip (ASCII whitespace). -/
def isPySpace (c : Char) : Bool :=
  c = ' ' || c = '\t' || c = '\n' || c = '\r' || c = '\x0b' || c = '\x0c'

/-- Python str.strip: drop leading and trailing whitespace. -/
def pyStrip (s : String) : String :=
  ⟨((s.data.dropWhile isPySpace).reverse.dropWhile isPySpace).reverse⟩

/-- Python sep.join over a list of strings. -/
def pyJoin (sep : String) : List String → String
  | [] => ""
  | [a] => a
  | a :: b :: l => a ++ sep ++ pyJoin sep (b :: l)

/-- Python truthiness of an optional string (None and the empty string are falsy). -/
def truthyS : Option String → Bool
  | none => false
  | some s => s != ""

/-- Python f-string rendering of a possibly-None string. -/
def optStr : Option String → String
  | none => "None"
  | some s => s

/-- Message dataclass of app.py (line 13). -/
structure Message where
  role : String
  content : String
  timestamp : Nat
  citations : Option (List String)
deriving DecidableEq

/-- Conversation dataclass of app.py (line 20). -/
structure Conversation where
  id : String
  messages : List Message
  created_at : Nat
  updated_at : Nat
deriving DecidableEq

/-- Keys of the conversations dict. -/
def ids (s : List Conversation) : List String := s.map Conversation.id

/-- Dict lookup conversations[cid] (first entry with matching id). -/
def storeLookup (cid : String) : List Conversation → Option Conversation
  | [] => none
  | c :: s => if c.id = cid then some c else storeLookup cid s

/-- In-place mutation of the stored object with id c.id. -/
def storeSet (s : List Conversation) (c : Conversation) : List Conversation :=
  s.map (fun x => if x.id = c.id then c else x)

/-- Dict write conversations[c.id] = c (append when the key is new). -/
def storeInsert (s : List Conversation) (c : Conversation) : List Conversation :=
  if c.id ∈ ids s then storeSet s c else s ++ [c]

/-- MAX_CONVERSATIONS constant (app.py line 29). -/
def MAX_CONVERSATIONS : Nat := 1000

/-- CONVERSATION_TIMEOUT constant, 24 hours in seconds (app.py line 30). -/
def CONVERSATION_TIMEOUT : Nat := 3600 * 24

/-- Stable insertion keeping the list sorted by updated_at. -/
def insertByUpdated (c : Conversation) : List Conversation → List Conversation
  | [] => [c]
  | x :: xs => if c.updated_at ≤ x.updated_at then c :: x :: xs else x :: insertByUpdated c xs

/-- Python sorted(conversations.values(), key updated_at): stable ascending sort. -/
def sortByUpdated : List Conversation → List Conversation
  | [] => []
  | x :: xs => insertByUpdated x (sortByUpdated xs)

/-- cleanup_old_conversations (app.py lines 154-171): drop timed-out
entries, then if still above capacity delete the oldest-by-updated_at
entries until exactly MAX_CONVERSATIONS remain. -/
def cleanup_old_conversations (now : Nat) (s : List Conversation) : List Conversation :=
  let s1 := s.filter (fun c => !(now - c.updated_at > CONVERSATION_TIMEOUT))
  if s1.length > MAX_CONVERSATIONS then
    let excess := s1.length - MAX_CONVERSATIONS
    ((sortByUpdated s1).take excess).foldl (fun acc c => acc.eraseP (fun x => x.id == c.id)) s1
  else s1

/-- Creation of a fresh conversation (app.py lines 183-192); the random
uuid4 id is passed in as newId. -/
def createConversation (now : Nat) (newId : String) (s1 : List Conversation) : Conversation × List Conversation :=
  let conv : Conversation := ⟨newId, [], now, now⟩
  (conv, storeInsert s1 conv)

/-- get_or_create_conversation (app.py lines 174-192): cleanup first;
a truthy id found in the store is bumped and returned, otherwise a
fresh conversation is created. -/
def get_or_create_conversation (now : Nat) (newId : String) (conversation_id : Option String) (s : List Conversation) : Conversation × List Conversation :=
  let s1 := cleanup_old_conversations now s
  match conversation_id with
  | some cid =>
    if cid != "" then
      match storeLookup cid s1 with
      | some conv =>
        let conv' := { conv with updated_at := now }
        (conv', storeSet s1 conv')
      | none => createConversation now newId s1
    else createConversation now newId s1
  | none => createConversation now newId s1

/-- add_message_to_conversation (app.py lines 195-204). -/
def add_message_to_conversation (now : Nat) (conversation : Conversation) (role content : String) (citations : Option (List String)) : Conversation :=
  { conversation with
      messages := conversation.messages ++ [⟨role, content, now, citations⟩],
      updated_at := now }

/-- format_conversation_history (app.py lines 207-216): the last
max_messages messages, each labeled User:/Assistant:, joined by blank
lines. -/
def format_conversation_history (conversation : Conversation) (max_messages : Nat) : String :=
  let recent := if conversation.messages.length > max_messages
    then conversation.messages.drop (conversation.messages.length - max_messages)
    else conversation.messages
  pyJoin "\n\n" (recent.map (fun m => (if m.role = "user" then "User: " else "Assistant: ") ++ m.content))

/-- Environment-derived configuration (app.py lines 67-74). -/
structure Config where
  PROJECT_ID : Option String
  LOCATION : String
  RAG_CORPUS : Option String
  DATA_STORE_ID : Option String
  SIMILARITY_TOP_K : Int
deriving DecidableEq

/-- A retrieval tool descriptor; represents both the typed Tool object
and its JSON form, which carry the same content. -/
inductive RetrievalTool where
  | vertexRagStore (ragCorpus : String) (similarityTopK : Int)
  | vertexAiSearch (datastore : String)
deriving DecidableEq

/-- The fully-qualified data store path template (app.py lines 93-96 and 311-314). -/
def datastore_path (cfg : Config) : String :=
  "projects/" ++ optStr cfg.PROJECT_ID ++ "/locations/" ++ cfg.LOCATION ++
    "/collections/default_collection/dataStores/" ++ optStr cfg.DATA_STORE_ID

/-- build_retrieval_tools_json (app.py lines 79-105); the RuntimeError
when neither source is set becomes an error value. -/
def build_retrieval_tools_json (cfg : Config) : Except String (List RetrievalTool) :=
  if truthyS cfg.RAG_CORPUS then
    .ok [.vertexRagStore (optStr cfg.RAG_CORPUS) cfg.SIMILARITY_TOP_K]
  else if truthyS cfg.DATA_STORE_ID then
    .ok [.vertexAiSearch (datastore_path cfg)]
  else
    .error "Server not configured. Set RAG_CORPUS or DATA_STORE_ID in .env"

/-- The typed tools_objects list built inside ask (app.py lines 298-321);
unlike build_retrieval_tools_json it is empty when no source is set. -/
def typed_tools (cfg : Config) : List RetrievalTool :=
  if truthyS cfg.RAG_CORPUS then
    [.vertexRagStore (optStr cfg.RAG_CORPUS) cfg.SIMILARITY_TOP_K]
  else if truthyS cfg.DATA_STORE_ID then
    [.vertexAiSearch (datastore_path cfg)]
  else []

/-- Web attribute of a grounding chunk (typed response). -/
structure TWeb where
  uri : Option String
deriving DecidableEq

/-- File attribute of a grounding chunk (typed response). -/
structure TFileInfo where
  file_path : Option String
deriving DecidableEq

/-- Grounding chunk (typed response). -/
structure TChunk where
  web : Option TWeb
  file : Option TFileInfo
deriving DecidableEq

/-- The .support attribute read off each grounding support (app.py line 136). -/
structure TSupportInner where
  grounding_chunk : Option TChunk
deriving DecidableEq

/-- One element of grounding_supports (typed response). -/
structure TSupport where
  support : Option TSupportInner
deriving DecidableEq

/-- grounding_metadata of the first candidate (typed response). -/
structure TGroundingMetadata where
  grounding_supports : Option (List TSupport)
deriving DecidableEq

/-- One part of a candidate's content (typed response). -/
structure TPart where
  text : Option String
deriving DecidableEq

/-- Content of a candidate (typed response). -/
structure TContent where
  parts : Option (List TPart)
deriving DecidableEq

/-- One candidate of the typed response. -/
structure TCandidate where
  content : Option TContent
  grounding_metadata : Option TGroundingMetadata
deriving DecidableEq

/-- The typed SDK response object; every attribute is optional,
mirroring the getattr-with-default accesses of app.py. -/
structure TypedResponse where
  text : Option String
  candidates : Option (List TCandidate)
deriving DecidableEq

/-- extract_text_from_response (app.py lines 108-124). -/
def extract_text_from_response (response : Option TypedResponse) : String :=
  match response with
  | none => ""
  | some r =>
    let direct := pyStrip (r.text.getD "")
    if direct != "" then direct
    else
      match r.candidates with
      | none => ""
      | some [] => ""
      | some cands =>
        let texts := cands.foldl (fun acc cand =>
          let parts := match cand.content with
            | none => []
            | some ct => ct.parts.getD []
          parts.foldl (fun acc2 p =>
            match p.text with
            | some t => acc2 ++ [t]
            | none => acc2) acc) ([] : List String)
        pyStrip (pyJoin "\n" texts)

/-- The uri chosen from a grounding chunk (app.py lines 142-148):
web.uri when truthy, else file.file_path when truthy, else nothing
(empty string encodes Python falsy None/blank). -/
def chunkUri (chunk : TChunk) : String :=
  let webUri := match chunk.web with
    | some w => w.uri.getD ""
    | none => ""
  let fileUri := match chunk.file with
    | some f => f.file_path.getD ""
    | none => ""
  if webUri != "" then webUri else if fileUri != "" then fileUri else ""

/-- The citation contributed by one grounding support (app.py lines 135-150). -/
def typedSupportUri (s : TSupport) : Option String :=
  match s.support with
  | none => none
  | some sup =>
    match sup.grounding_chunk with
    | none => none
    | some chunk =>
      let u := chunkUri chunk
      if u != "" then some u else none

/-- extract_citations_from_response (app.py lines 127-151). -/
def extract_citations_from_response (response : Option TypedResponse) : List String :=
  match response with
  | none => []
  | some r =>
    match r.candidates with
    | none => []
    | some [] => []
    | some (c0 :: _) =>
      match c0.grounding_metadata with
      | none => []
      | some gm =>
        (gm.grounding_supports.getD []).foldl (fun cits s =>
          match typedSupportUri s with
          | some u => cits ++ [u]
          | none => cits) []

/-- The grounding supports the typed extractor walks (first candidate's
grounding metadata, empty when anything is missing). -/
def typedSupportsOf (response : Option TypedResponse) : List TSupport :=
  match response with
  | none => []
  | some r =>
    match r.candidates with
    | none => []
    | some [] => []
    | some (c0 :: _) =>
      match c0.grounding_metadata with
      | none => []
      | some gm => gm.grounding_supports.getD []

/-- Web dict of a REST grounding chunk. -/
structure RWeb where
  uri : Option String
deriving DecidableEq

/-- File dict of a REST grounding chunk. -/
structure RFile where
  filePath : Option String
deriving DecidableEq

/-- REST grounding chunk dict. -/
structure RChunk where
  web : Option RWeb
  file : Option RFile
deriving DecidableEq

/-- The "support" entry of a REST grounding support dict. -/
structure RSupportInner where
  groundingChunk : Option RChunk
deriving DecidableEq

/-- One element of groundingSupports in the REST JSON. -/
structure RSupport where
  support : Option RSupportInner
deriving DecidableEq

/-- groundingMetadata dict of a REST candidate. -/
structure RGroundingMetadata where
  groundingSupports : Option (List RSupport)
deriving DecidableEq

/-- One part dict of a REST candidate's content. -/
structure RPart where
  text : Option String
deriving DecidableEq

/-- content dict of a REST candidate. -/
structure RContent where
  parts : Option (List RPart)
deriving DecidableEq

/-- One candidate dict of the REST JSON response. -/
structure RCandidate where
  content : Option RContent
  groundingMetadata : Option RGroundingMetadata
deriving DecidableEq

/-- The parsed REST JSON response body. -/
structure RRestResponse where
  candidates : Option (List RCandidate)
deriving DecidableEq

/-- The inline REST answer extraction (app.py lines 354-360). -/
def rest_answer (resp : RRestResponse) : String :=
  let texts := (resp.candidates.getD []).foldl (fun acc cand =>
    let parts := match cand.content with
      | none => []
      | some ct => ct.parts.getD []
    parts.foldl (fun a p =>
      match p.text with
      | some t => a ++ [t]
      | none => a) acc) ([] : List String)
  pyStrip (pyJoin "\n" texts)

/-- The uri chosen from a REST grounding chunk (app.py line 365). -/
def restChunkUri (chunk : RChunk) : String :=
  let webUri := match chunk.web with
    | some w => w.uri.getD ""
    | none => ""
  let fileUri := match chunk.file with
    | some f => f.filePath.getD ""
    | none => ""
  if webUri != "" then webUri else fileUri

/-- The citation contributed by one REST grounding support (app.py lines 363-367). -/
def restSupportUri (s : RSupport) : Option String :=
  let chunkOpt : Option RChunk := match s.support with
    | none => none
    | some si => si.groundingChunk
  match chunkOpt with
  | none => none
  | some chunk =>
    let u := restChunkUri chunk
    if u != "" then some u else none

/-- The inline REST citation extraction (app.py lines 361-367).  When
"candidates" is present but an empty list, indexing [0] raises an
IndexError, modelled as an error value. -/
def rest_citations (resp : RRestResponse) : Except String (List String) :=
  match resp.candidates with
  | none => .ok []
  | some [] => .error "list index out of range"
  | some (c0 :: _) =>
    let supports := match c0.groundingMetadata with
      | none => []
      | some gm => gm.groundingSupports.getD []
    .ok (supports.foldl (fun cits s =>
      match restSupportUri s with
      | some u => cits ++ [u]
      | none => cits) [])

/-- The grounding supports the REST extraction walks when candidates is
present and non-empty. -/
def restSupportsOf (resp : RRestResponse) : List RSupport :=
  match resp.candidates with
  | none => []
  | some [] => []
  | some (c0 :: _) =>
    match c0.groundingMetadata with
    | none => []
    | some gm => gm.groundingSupports.getD []

/-- Body of the health endpoint response. -/
structure HealthBody where
  status : String
deriving DecidableEq

/-- The health handler (app.py lines 227-229), in its ambient context:
it ignores the configuration, never calls the remote service (it takes
no oracle), and leaves the store unchanged. -/
def health (cfg : Config) (s : List Conversation) : (Nat × HealthBody) × List Conversation :=
  ((200, ⟨"ok"⟩), s)

/-- Response of the conversation read endpoint. -/
inductive GetConvResponse where
  | notFound (status : Nat) (error : String)
  | ok (status : Nat) (body : Conversation)
deriving DecidableEq

/-- get_conversation handler (app.py lines 232-252); it serializes the
conversation as stored and performs no store mutation. -/
def get_conversation (conversation_id : String) (s : List Conversation) : GetConvResponse × List Conversation :=
  match storeLookup conversation_id s with
  | none => (.notFound 404 "Conversation not found", s)
  | some conv => (.ok 200 conv, s)

/-- The outbound request to the remote generation service. -/
structure OutboundRequest where
  prompt : String
  tools : List RetrievalTool
  temperature : String
deriving DecidableEq

/-- Outcome of the typed-client remote call. -/
inductive TypedOutcome where
  | raised (msg : String)
  | ok (response : Option TypedResponse)

/-- Outcome of the REST remote call. -/
inductive RestOutcome where
  | raised (msg : String)
  | response (ok : Bool) (status : Nat) (text : String) (body : RRestResponse)

/-- The remote service, an oracle over outbound requests. -/
structure Oracle where
  typed : OutboundRequest → TypedOutcome
  rest : OutboundRequest → RestOutcome

/-- HTTP response of the ask handler. -/
inductive AskResponse where
  | error (status : Nat) (message : String)
  | success (answer : String) (citations : List String) (conversation_id : String)
deriving DecidableEq

/-- JSON request body of the ask endpoint. -/
structure AskInput where
  question : Option String
  conversation_id : Option String

/-- Result of one ask call: the HTTP response, the conversation store
after the call, and the outbound request sent upstream, if any. -/
structure AskOut where
  resp : AskResponse
  store : List Conversation
  sent : Option OutboundRequest

/-- The ask handler (app.py lines 271-389).  haveToolClasses is the
module constant selecting the typed branch over the REST fallback; the
uuid for a possible new conversation is passed as newId; exceptions in
either branch are modelled by the oracle's raised outcome and surface
as a 500 with the exception text, as in the outer except. -/
def ask (cfg : Config) (haveToolClasses : Bool) (orc : Oracle) (now : Nat) (newId : String) (inp : AskInput) (store : List Conversation) : AskOut :=
  let question := pyStrip (inp.question.getD "")
  if question = "" then
    ⟨.error 400 "Missing question", store, none⟩
  else if !truthyS cfg.PROJECT_ID then
    ⟨.error 500 "Set PROJECT_ID in .env", store, none⟩
  else
    let gc := get_or_create_conversation now newId inp.conversation_id store
    let conv1 := add_message_to_conversation now gc.1 "user" question none
    let s2 := storeSet gc.2 conv1
    let history := format_conversation_history conv1 10
    let enhanced := if history = "" then question
      else "Previous conversation:\n" ++ history ++ "\n\nCurrent question: " ++ question
    if haveToolClasses then
      let req : OutboundRequest := ⟨enhanced, typed_tools cfg, "0.2"⟩
      match orc.typed req with
      | .raised msg => ⟨.error 500 msg, s2, some req⟩
      | .ok response =>
        let answer := extract_text_from_response response
        let citations := extract_citations_from_response response
        let conv2 := add_message_to_conversation now conv1 "assistant" answer (some citations)
        ⟨.success answer citations conv1.id, storeSet s2 conv2, some req⟩
    else
      match build_retrieval_tools_json cfg with
      | .error msg => ⟨.error 500 msg, s2, none⟩
      | .ok tools =>
        let req : OutboundRequest := ⟨enhanced, tools, "0.2"⟩
        match orc.rest req with
        | .raised msg => ⟨.error 500 msg, s2, some req⟩
        | .response ok status text body =>
          if !ok then
            ⟨.error 502 ("Vertex error: " ++ toString status ++ " " ++ text), s2, some req⟩
          else
            match rest_citations body with
            | .error msg => ⟨.error 500 msg, s2, some req⟩
            | .ok citations =>
              let answer := rest_answer body
              let conv2 := add_message_to_conversation now conv1 "assistant" answer (some citations)
              ⟨.success answer citations conv1.id, storeSet s2 conv2, some req⟩

/-- Distinct fresh conversation ids for the eviction scenario. -/
def natId (n : Nat) : String := ⟨List.replicate n 'a'⟩

/-- Insert n fresh conversations through get_or_create_conversation at
time 0, starting from an empty store. -/
def insertN (n : Nat) : List Conversation :=
  (List.range n).foldl (fun s i => (get_or_create_conversation 0 (natId i) none s).2) []

/-- A grounding support carrying a fixed web uri, used twice to exhibit
a duplicate citation. -/
def supDup : TSupport := ⟨some ⟨some ⟨some ⟨some "https://e.com/a"⟩, none⟩⟩⟩

/-- A typed response whose first candidate has two grounding supports
with the same uri. -/
def respDup : TypedResponse := ⟨none, some [⟨none, some ⟨some [supDup, supDup]⟩⟩]⟩

/-- A REST grounding support carrying the same web uri twice. -/
def rsupDup : RSupport := ⟨some ⟨some ⟨some ⟨some "https://e.com/a"⟩, none⟩⟩⟩

/-- A REST response whose first candidate has two grounding supports
with the same uri. -/
def rrespDup : RRestResponse := ⟨some [⟨none, some ⟨some [rsupDup, rsupDup]⟩⟩]⟩

/-- A store holding one conversation last updated at instant 5. -/
def c5store : List Conversation := [⟨"a", [], 0, 5⟩]

/-- An oracle whose typed call succeeds with a bare response. -/
def c2oracle : Oracle := ⟨fun _ => .ok none, fun _ => .raised "unreachable"⟩

/-- A configuration with a project id and no retrieval source. -/
def noSourceCfg : Config := ⟨some "p", "us-central1", none, none, 5⟩

/-- An oracle whose typed call succeeds with a response carrying
direct text "hello". -/
def c4oracle : Oracle := ⟨fun _ => .ok (some ⟨some "hello", none⟩), fun _ => .raised "unreachable"⟩

/-- An oracle that always raises. -/
def raisingOracle : Oracle := ⟨fun _ => .raised "boom", fun _ => .raised "boom"⟩

/-- Folding option-valued extraction with list append equals filterMap. -/
theorem foldl_appendOpt {α : Type} (f : α → Option String) :
    ∀ (l : List α) (init : List String),
      l.foldl (fun cits s =>
        match f s with
        | some u => cits ++ [u]
        | none => cits) init = init ++ l.filterMap f := by
  intro l
  induction l with
  | nil => intro init; simp
  | cons a l ih =>
    intro init
    cases h : f a <;> simp [h, ih, List.filterMap_cons]

/-- Candidates with no content contribute no text parts. -/
theorem foldl_texts_of_content_none :
    ∀ (cands : List TCandidate) (acc : List String),
      (∀ c ∈ cands, c.content = none) →
      cands.foldl (fun acc2 cand =>
        let parts := match cand.content with
          | none => []
          | some ct => ct.parts.getD []
        parts.foldl (fun a p =>
          match p.text with
          | some t => a ++ [t]
          | none => a) acc2) acc = acc := by
  intro cands
  induction cands with
  | nil => intro acc _; rfl
  | cons c cands ih =>
    intro acc h
    have hc : c.content = none := h c (List.mem_cons_self c cands)
    have hrest : ∀ x ∈ cands, x.content = none := fun x hx => h x (List.mem_cons_of_mem c hx)
    simp only [List.foldl_cons, hc]
    exact ih acc hrest

/-- C1 counterexample: a response in which the same uri occurs in two
grounding supports yields that uri twice, on the typed extractor and on
the inline REST extraction alike, so the returned list is not
duplicate-free. -/
theorem C1_counterexample :
    extract_citations_from_response (some respDup) = ["https://e.com/a", "https://e.com/a"] ∧
    rest_citations rrespDup = .ok ["https://e.com/a", "https://e.com/a"] ∧
    ¬ (extract_citations_from_response (some respDup)).Nodup := by
  refine ⟨rfl, rfl, ?_⟩
  decide

/-- C1 amended: the citation extraction returns the grounding supports'
uris in encounter order with duplicates retained: it equals the
per-support uri list (web uri preferred over the file path, blank or
absent entries skipped), with no deduplication. -/
theorem C1_citations_in_order_with_duplicates :
    (∀ response : Option TypedResponse,
      extract_citations_from_response response
        = (typedSupportsOf response).filterMap typedSupportUri) ∧
    (∀ resp : RRestResponse, resp.candidates ≠ some [] →
      rest_citations resp = .ok ((restSupportsOf resp).filterMap restSupportUri)) := by
  constructor
  · intro response
    match response with
    | none => rfl
    | some r =>
      match hc : r.candidates with
      | none => simp [extract_citations_from_response, typedSupportsOf, hc]
      | some [] => simp [extract_citations_from_response, typedSupportsOf, hc]
      | some (c0 :: rest) =>
        match hg : c0.grounding_metadata with
        | none => simp [extract_citations_from_response, typedSupportsOf, hc, hg]
        | some gm =>
          simp only [extract_citations_from_response, typedSupportsOf, hc, hg]
          simpa using foldl_appendOpt typedSupportUri (gm.grounding_supports.getD []) []
  · intro resp hne
    match hc : resp.candidates with
    | none => simp [rest_citations, restSupportsOf, hc]
    | some [] => exact absurd hc hne
    | some (c0 :: rest) =>
      match hg : c0.groundingMetadata with
      | none => simp [rest_citations, restSupportsOf, hc, hg]
      | some gm =>
        simp only [rest_citations, restSupportsOf, hc, hg]
        rw [foldl_appendOpt restSupportUri (gm.groundingSupports.getD []) []]
        simp

/-- C1 witness: the REST half of the amended theorem applied to a
response with no candidates field. -/
theorem C1_citations_witness :
    rest_citations ⟨none⟩ = .ok ((restSupportsOf ⟨none⟩).filterMap restSupportUri) :=
  C1_citations_in_order_with_duplicates.2 ⟨none⟩ (by decide)

/-- C6: a missing, empty, or whitespace-only question is rejected with
a 400 error before the store is touched and before anything is sent
upstream. -/
theorem C6_blank_question_rejected :
    ∀ (cfg : Config) (htc : Bool) (orc : Oracle) (now : Nat) (newId : String)
      (inp : AskInput) (store : List Conversation),
      pyStrip (inp.question.getD "") = "" →
      (ask cfg htc orc now newId inp store).resp = .error 400 "Missing question" ∧
      (ask cfg htc orc now newId inp store).store = store ∧
      (ask cfg htc orc now newId inp store).sent = none := by
  intro cfg htc orc now newId inp store h
  refine ⟨?_, ?_, ?_⟩ <;> simp [ask, h]

/-- C6 witness: a whitespace-only question on an empty store. -/
theorem C6_blank_question_witness :
    (ask noSourceCfg true c2oracle 0 "n" ⟨some " \t ", none⟩ []).resp = .error 400 "Missing question" ∧
    (ask noSourceCfg true c2oracle 0 "n" ⟨some " \t ", none⟩ []).store = [] ∧
    (ask noSourceCfg true c2oracle 0 "n" ⟨some " \t ", none⟩ []).sent = none :=
  C6_blank_question_rejected noSourceCfg true c2oracle 0 "n" ⟨some " \t ", none⟩ [] (by decide)

/-- C8: the extractors are total functions of the optional-field
response shape, and a missing or blank field at any level degrades to
the empty string (answer) or contributes nothing / yields the empty
list (citations), never an error. -/
theorem C8_missing_fields_degrade :
    extract_text_from_response none = "" ∧
    extract_citations_from_response none = [] ∧
    (∀ r : TypedResponse, pyStrip (r.text.getD "") = "" → r.candidates = none →
      extract_text_from_response (some r) = "") ∧
    (∀ r : TypedResponse, pyStrip (r.text.getD "") = "" → r.candidates = some [] →
      extract_text_from_response (some r) = "") ∧
    (∀ (r : TypedResponse) (cands : List TCandidate),
      pyStrip (r.text.getD "") = "" → r.candidates = some cands →
      (∀ c ∈ cands, c.content = none) →
      extract_text_from_response (some r) = "") ∧
    (∀ r : TypedResponse, r.candidates = none →
      extract_citations_from_response (some r) = []) ∧
    (∀ (r : TypedResponse) (c0 : TCandidate) (rest : List TCandidate),
      r.candidates = some (c0 :: rest) → c0.grounding_metadata = none →
      extract_citations_from_response (some r) = []) ∧
    (∀ (r : TypedResponse) (c0 : TCandidate) (rest : List TCandidate) (gm : TGroundingMetadata),
      r.candidates = some (c0 :: rest) → c0.grounding_metadata = some gm →
      gm.grounding_supports = none →
      extract_citations_from_response (some r) = []) ∧
    (∀ s : TSupport, s.support = none → typedSupportUri s = none) ∧
    (∀ (s : TSupport) (sup : TSupportInner), s.support = some sup →
      sup.grounding_chunk = none → typedSupportUri s = none) ∧
    (∀ (s : TSupport) (sup : TSupportInner) (chunk : TChunk), s.support = some sup →
      sup.grounding_chunk = some chunk → chunk.web = none → chunk.file = none →
      typedSupportUri s = none) := by
  refine ⟨rfl, rfl, ?_, ?_, ?_, ?_, ?_, ?_, ?_, ?_, ?_⟩
  · intro r ht hc
    simp [extract_text_from_response, ht, hc]
  · intro r ht hc
    simp [extract_text_from_response, ht, hc]
  · intro r cands ht hc hnone
    cases cands with
    | nil => simp [extract_text_from_response, ht, hc]
    | cons c cs =>
      simp only [extract_text_from_response, ht, hc]
      rw [foldl_texts_of_content_none (c :: cs) [] hnone]
      simp [pyJoin, pyStrip]
  · intro r hc
    simp [extract_citations_from_response, hc]
  · intro r c0 rest hc hg
    simp [extract_citations_from_response, hc, hg]
  · intro r c0 rest gm hc hg hs
    simp [extract_citations_from_response, hc, hg, hs]
  · intro s hs
    simp [typedSupportUri, hs]
  · intro s sup hs hg
    simp [typedSupportUri, hs, hg]
  · intro s sup chunk hs hg hw hf
    simp [typedSupportUri, hs, hg, chunkUri, hw, hf]

/-- C8 witness: the answer extractor applied to a response with no
text and no candidates. -/
theorem C8_missing_fields_witness :
    extract_text_from_response (some ⟨none, none⟩) = "" :=
  C8_missing_fields_degrade.2.2.1 ⟨none, none⟩ (by decide) rfl

/-- C5 counterexample: reading a conversation through the read endpoint
at an access instant of 9 leaves its updated_at at its old value 5: the
handler never reads the clock, so the read does not bump updated_at. -/
theorem C5_counterexample :
    (get_conversation "a" c5store).2 = c5store ∧
    (get_conversation "a" c5store).1 = .ok 200 ⟨"a", [], 0, 5⟩ ∧
    (5 : Nat) ≠ 9 := by
  refine ⟨rfl, rfl, ?_⟩
  decide

/-- C5 amended: get_or_create_conversation on an existing truthy id and
add_message_to_conversation both set updated_at to the access time, but
the conversation read endpoint leaves the store, and hence every
updated_at in it, unchanged. -/
theorem C5_updated_at_bumps :
    (∀ (now : Nat) (newId cid : String) (s : List Conversation) (conv : Conversation),
      cid != "" →
      storeLookup cid (cleanup_old_conversations now s) = some conv →
      (get_or_create_conversation now newId (some cid) s).1.updated_at = now) ∧
    (∀ (now : Nat) (conv : Conversation) (role content : String) (cits : Option (List String)),
      (add_message_to_conversation now conv role content cits).updated_at = now) ∧
    (∀ (cid : String) (s : List Conversation), (get_conversation cid s).2 = s) := by
  refine ⟨?_, ?_, ?_⟩
  · intro now newId cid s conv hcid hfound
    simp [get_or_create_conversation, hcid, hfound]
  · intro now conv role content cits
    rfl
  · intro cid s
    cases h : storeLookup cid s <;> simp [get_conversation, h]

/-- C5 witness: the bump on reading an existing conversation through
get_or_create_conversation at instant 7. -/
theorem C5_updated_at_witness :
    (get_or_create_conversation 7 "n" (some "a") c5store).1.updated_at = 7 :=
  C5_updated_at_bumps.1 7 "n" "a" c5store ⟨"a", [], 0, 5⟩ (by decide) (by decide)

/-- The join of a non-empty list of strings is at least as long as its head. -/
theorem pyJoin_head_le (sep : String) : ∀ (a : String) (l : List String),
    a.length ≤ (pyJoin sep (a :: l)).length := by
  intro a l
  cases l with
  | nil => simp [pyJoin]
  | cons b l =>
    show a.length ≤ (a ++ sep ++ pyJoin sep (b :: l)).length
    simp [String.length_append]
    omega


/-- The join of a list whose head has positive length is non-empty. -/
theorem pyJoin_cons_ne_empty (sep a : String) (l : List String) (ha : 0 < a.length) :
    pyJoin sep (a :: l) ≠ "" := by
  intro hcontra
  have hlen := pyJoin_head_le sep a l
  rw [hcontra] at hlen
  have hz : ("" : String).length = 0 := rfl
  omega

/-- The formatted history of a conversation with at least one message
is a non-empty string. -/
theorem format_history_ne_empty (conv : Conversation) (h : conv.messages ≠ []) :
    format_conversation_history conv 10 ≠ "" := by
  have hne : (if conv.messages.length > 10
      then conv.messages.drop (conv.messages.length - 10)
      else conv.messages) ≠ [] := by
    split
    · next hgt =>
      intro hc
      have hlen := congrArg List.length hc
      simp [List.length_drop] at hlen
      omega
    · exact h
  obtain ⟨m, ms, hr⟩ := List.exists_cons_of_ne_nil hne
  show pyJoin "\n\n" ((if conv.messages.length > 10
      then conv.messages.drop (conv.messages.length - 10)
      else conv.messages).map (fun x => (if x.role = "user" then "User: " else "Assistant: ") ++ x.content)) ≠ ""
  rw [hr, List.map_cons]
  apply pyJoin_cons_ne_empty
  rw [String.length_append]
  have h6 : 0 < (if m.role = "user" then "User: " else "Assistant: ").length := by
    split <;> decide
  omega

/-- Whenever ask sends a request upstream, its prompt is the history
template applied to the conversation after the user message was
appended, and its tool list is the typed tools_objects list or the
JSON tools list, according to the branch taken. -/
theorem ask_sent_shape :
    ∀ (cfg : Config) (htc : Bool) (orc : Oracle) (now : Nat) (newId : String)
      (inp : AskInput) (store : List Conversation) (req : OutboundRequest),
      (ask cfg htc orc now newId inp store).sent = some req →
      (req.prompt =
        (if format_conversation_history (add_message_to_conversation now
              (get_or_create_conversation now newId inp.conversation_id store).1 "user"
              (pyStrip (inp.question.getD "")) none) 10 = ""
          then pyStrip (inp.question.getD "")
          else "Previous conversation:\n" ++
            format_conversation_history (add_message_to_conversation now
              (get_or_create_conversation now newId inp.conversation_id store).1 "user"
              (pyStrip (inp.question.getD "")) none) 10 ++
            "\n\nCurrent question: " ++ pyStrip (inp.question.getD ""))) ∧
      (req.tools = typed_tools cfg ∨ build_retrieval_tools_json cfg = .ok req.tools) := by
  intro cfg htc orc now newId inp store req h
  by_cases hq : pyStrip (inp.question.getD "") = ""
  · simp [ask, hq] at h
  cases hp : truthyS cfg.PROJECT_ID with
  | false => simp [ask, hq, hp] at h
  | true =>
    unfold ask at h
    rw [if_neg hq, hp] at h
    simp only [Bool.not_true, Bool.false_eq_true, if_false] at h
    cases htc with
    | true =>
      rw [if_pos rfl] at h
      split at h <;>
        · dsimp only at h
          injection h with h
          subst h
          exact ⟨rfl, Or.inl rfl⟩
    | false =>
      rw [if_neg (by simp)] at h
      split at h
      · dsimp only at h
        exact absurd h (by simp)
      · next tools hb =>
        split at h
        · dsimp only at h
          injection h with h
          subst h
          exact ⟨rfl, Or.inr hb⟩
        · split at h
          · dsimp only at h
            injection h with h
            subst h
            exact ⟨rfl, Or.inr hb⟩
          · split at h <;>
              · dsimp only at h
                injection h with h
                subst h
                exact ⟨rfl, Or.inr hb⟩

/-- C2 counterexample: on a brand-new conversation the question "hi" is
not sent unmodified: the user message is appended before the history is
formatted, so the transcript already contains the current question and
the template is applied. -/
theorem C2_counterexample :
    (ask noSourceCfg true c2oracle 0 "n" ⟨some "hi", none⟩ []).sent =
      some ⟨"Previous conversation:\nUser: hi\n\nCurrent question: hi", [], "0.2"⟩ ∧
    "Previous conversation:\nUser: hi\n\nCurrent question: hi" ≠ "hi" := by
  exact ⟨rfl, by decide⟩

/-- C2 amended: every prompt sent upstream is the fixed template applied
to the formatted last-10 messages of the conversation after the current
user question has been appended; since that transcript is never empty,
the plain unprefixed question is never sent. -/
theorem C2_prompt_includes_current_question :
    ∀ (cfg : Config) (htc : Bool) (orc : Oracle) (now : Nat) (newId : String)
      (inp : AskInput) (store : List Conversation) (req : OutboundRequest),
      (ask cfg htc orc now newId inp store).sent = some req →
      req.prompt = "Previous conversation:\n" ++
        format_conversation_history (add_message_to_conversation now
          (get_or_create_conversation now newId inp.conversation_id store).1 "user"
          (pyStrip (inp.question.getD "")) none) 10 ++
        "\n\nCurrent question: " ++ pyStrip (inp.question.getD "") := by
  intro cfg htc orc now newId inp store req h
  have hs := (ask_sent_shape cfg htc orc now newId inp store req h).1
  rw [if_neg] at hs
  · exact hs
  · apply format_history_ne_empty
    simp [add_message_to_conversation]

/-- C2 witness: the amended theorem applied to the concrete request of
the counterexample scenario. -/
theorem C2_prompt_witness :
    (⟨"Previous conversation:\nUser: hi\n\nCurrent question: hi", [], "0.2"⟩ : OutboundRequest).prompt =
      "Previous conversation:\n" ++
        format_conversation_history (add_message_to_conversation 0
          (get_or_create_conversation 0 "n" none []).1 "user" (pyStrip ((some "hi").getD "")) none) 10 ++
        "\n\nCurrent question: " ++ pyStrip ((some "hi").getD "") :=
  C2_prompt_includes_current_question noSourceCfg true c2oracle 0 "n" ⟨some "hi", none⟩ []
    ⟨"Previous conversation:\nUser: hi\n\nCurrent question: hi", [], "0.2"⟩ rfl

/-- C4 counterexample: with the typed tool classes available, a project
id configured, and no retrieval source configured at all, ask does not
fail with a configuration error: it sends the request with an empty
tool list and returns the upstream answer as a 200 success. -/
theorem C4_counterexample :
    (ask noSourceCfg true c4oracle 0 "n" ⟨some "q", none⟩ []).resp =
      .success "hello" [] "n" := by
  rfl

/-- C4 amended: a missing project id always yields the 500
configuration error with the store untouched; a missing retrieval
source yields the 500 configuration error only on the REST fallback
path, where build_retrieval_tools_json raises. -/
theorem C4_config_errors :
    (∀ (cfg : Config) (htc : Bool) (orc : Oracle) (now : Nat) (newId : String)
      (inp : AskInput) (store : List Conversation),
      pyStrip (inp.question.getD "") ≠ "" →
      truthyS cfg.PROJECT_ID = false →
      (ask cfg htc orc now newId inp store).resp = .error 500 "Set PROJECT_ID in .env" ∧
      (ask cfg htc orc now newId inp store).store = store) ∧
    (∀ (cfg : Config) (orc : Oracle) (now : Nat) (newId : String)
      (inp : AskInput) (store : List Conversation),
      pyStrip (inp.question.getD "") ≠ "" →
      truthyS cfg.PROJECT_ID = true →
      truthyS cfg.RAG_CORPUS = false →
      truthyS cfg.DATA_STORE_ID = false →
      (ask cfg false orc now newId inp store).resp =
        .error 500 "Server not configured. Set RAG_CORPUS or DATA_STORE_ID in .env") := by
  constructor
  · intro cfg htc orc now newId inp store hq hp
    constructor <;> simp [ask, hq, hp]
  · intro cfg orc now newId inp store hq hp hr hd
    simp [ask, hq, hp, build_retrieval_tools_json, hr, hd]

/-- C4 witness: the missing-project-id half applied to a concrete
configuration with no project id. -/
theorem C4_config_errors_witness :
    (ask ⟨none, "us-central1", none, none, 5⟩ true raisingOracle 0 "n" ⟨some "q", none⟩ []).resp =
      .error 500 "Set PROJECT_ID in .env" ∧
    (ask ⟨none, "us-central1", none, none, 5⟩ true raisingOracle 0 "n" ⟨some "q", none⟩ []).store = [] :=
  C4_config_errors.1 ⟨none, "us-central1", none, none, 5⟩ true raisingOracle 0 "n"
    ⟨some "q", none⟩ [] (by decide) rfl

/-- C7: with at least one retrieval source configured, both tool
builders produce exactly one retrieval descriptor, the corpus one
(carrying SIMILARITY_TOP_K) when a corpus is configured, otherwise the
data-store one with the templated resource path, and every request ask
sends upstream carries exactly that descriptor. -/
theorem C7_single_retrieval_tool :
    ∀ cfg : Config, (truthyS cfg.RAG_CORPUS || truthyS cfg.DATA_STORE_ID) = true →
      ∃ t : RetrievalTool,
        build_retrieval_tools_json cfg = .ok [t] ∧
        typed_tools cfg = [t] ∧
        (truthyS cfg.RAG_CORPUS = true →
          t = .vertexRagStore (optStr cfg.RAG_CORPUS) cfg.SIMILARITY_TOP_K) ∧
        (truthyS cfg.RAG_CORPUS = false →
          t = .vertexAiSearch ("projects/" ++ optStr cfg.PROJECT_ID ++ "/locations/" ++
            cfg.LOCATION ++ "/collections/default_collection/dataStores/" ++
            optStr cfg.DATA_STORE_ID)) ∧
        (∀ (htc : Bool) (orc : Oracle) (now : Nat) (newId : String) (inp : AskInput)
          (store : List Conversation) (req : OutboundRequest),
          (ask cfg htc orc now newId inp store).sent = some req → req.tools = [t]) := by
  intro cfg hsrc
  cases hr : truthyS cfg.RAG_CORPUS with
  | true =>
    refine ⟨.vertexRagStore (optStr cfg.RAG_CORPUS) cfg.SIMILARITY_TOP_K, ?_, ?_, ?_, ?_, ?_⟩
    · simp [build_retrieval_tools_json, hr]
    · simp [typed_tools, hr]
    · intro _; rfl
    · intro hfalse; exact absurd hfalse (by decide)
    · intro htc orc now newId inp store req h
      rcases (ask_sent_shape cfg htc orc now newId inp store req h).2 with ht | hb
      · rw [ht]; simp [typed_tools, hr]
      · simp [build_retrieval_tools_json, hr] at hb
        exact hb.symm
  | false =>
    have hd : truthyS cfg.DATA_STORE_ID = true := by
      rw [hr] at hsrc; simpa using hsrc
    refine ⟨.vertexAiSearch (datastore_path cfg), ?_, ?_, ?_, ?_, ?_⟩
    · simp [build_retrieval_tools_json, hr, hd]
    · simp [typed_tools, hr, hd]
    · intro htrue; exact absurd htrue (by decide)
    · intro _; rfl
    · intro htc orc now newId inp store req h
      rcases (ask_sent_shape cfg htc orc now newId inp store req h).2 with ht | hb
      · rw [ht]; simp [typed_tools, hr, hd]
      · simp [build_retrieval_tools_json, hr, hd] at hb
        exact hb.symm

/-- C7 witness: a configuration with both sources set prefers the
corpus descriptor. -/
theorem C7_single_retrieval_tool_witness :
    ∃ t : RetrievalTool,
      build_retrieval_tools_json ⟨some "p", "us-central1", some "corpusName", some "ds1", 5⟩ = .ok [t] ∧
      typed_tools ⟨some "p", "us-central1", some "corpusName", some "ds1", 5⟩ = [t] ∧
      (truthyS (some "corpusName") = true → t = .vertexRagStore (optStr (some "corpusName")) 5) ∧
      (truthyS (some "corpusName") = false →
        t = .vertexAiSearch ("projects/" ++ optStr (some "p") ++ "/locations/" ++ "us-central1" ++
          "/collections/default_collection/dataStores/" ++ optStr (some "ds1"))) ∧
      (∀ (htc : Bool) (orc : Oracle) (now : Nat) (newId : String) (inp : AskInput)
        (store : List Conversation) (req : OutboundRequest),
        (ask ⟨some "p", "us-central1", some "corpusName", some "ds1", 5⟩ htc orc now newId inp store).sent = some req →
        req.tools = [t]) :=
  C7_single_retrieval_tool ⟨some "p", "us-central1", some "corpusName", some "ds1", 5⟩ (by decide)

/-- Looking up c.id after overwriting every entry with that id yields c,
provided the id is present. -/
theorem storeLookup_storeSet_self : ∀ (s : List Conversation) (c : Conversation),
    c.id ∈ ids s → storeLookup c.id (storeSet s c) = some c := by
  intro s c
  induction s with
  | nil => intro h; simp [ids] at h
  | cons x s ih =>
    intro h
    by_cases hx : x.id = c.id
    · simp [storeSet, storeLookup, hx]
    · have hmem : c.id ∈ ids s := by
        simp only [ids, List.map_cons, List.mem_cons] at h
        rcases h with h | h
        · exact absurd h.symm hx
        · exact h
      simpa [storeSet, storeLookup, hx] using ih hmem

/-- storeSet preserves the key set. -/
theorem ids_storeSet (s : List Conversation) (c : Conversation) : ids (storeSet s c) = ids s := by
  unfold ids storeSet
  rw [List.map_map]
  apply List.map_congr_left
  intro x _
  by_cases hx : x.id = c.id
  · simp [Function.comp, hx]
  · simp [Function.comp, hx]

/-- After a dict write the key is present. -/
theorem ids_storeInsert_mem (s : List Conversation) (c : Conversation) :
    c.id ∈ ids (storeInsert s c) := by
  unfold storeInsert
  split
  · rw [ids_storeSet]; assumption
  · simp [ids]

/-- A successful lookup returns an entry with the looked-up id, present
in the key set. -/
theorem storeLookup_id (cid : String) : ∀ (s : List Conversation) (conv : Conversation),
    storeLookup cid s = some conv → conv.id = cid ∧ conv.id ∈ ids s := by
  intro s
  induction s with
  | nil => intro conv h; cases h
  | cons x s ih =>
    intro conv h
    unfold storeLookup at h
    split at h
    · next hx =>
      cases h
      exact ⟨hx, by simp [ids, hx]⟩
    · next hx =>
      obtain ⟨h1, h2⟩ := ih conv h
      refine ⟨h1, ?_⟩
      simp only [ids, List.map_cons, List.mem_cons]
      exact Or.inr h2

/-- A freshly created conversation is present in the store returned by
createConversation. -/
theorem createConversation_mem (now : Nat) (newId : String) (s1 : List Conversation) :
    (createConversation now newId s1).1.id ∈ ids (createConversation now newId s1).2 :=
  ids_storeInsert_mem s1 ⟨newId, [], now, now⟩

/-- The conversation returned by get_or_create_conversation is present
in the store it returns. -/
theorem get_or_create_id_mem (now : Nat) (newId : String) (cid : Option String) (s : List Conversation) :
    (get_or_create_conversation now newId cid s).1.id ∈ ids (get_or_create_conversation now newId cid s).2 := by
  unfold get_or_create_conversation
  cases cid with
  | none => exact createConversation_mem _ _ _
  | some c =>
    dsimp only
    split
    · split
      · next conv hl =>
        dsimp only
        rw [ids_storeSet]
        exact (storeLookup_id c _ conv hl).2
      · exact createConversation_mem _ _ _
    · exact createConversation_mem _ _ _

/-- Once validation passes, ask either fails with a 500 or 502 leaving
the store holding the user message, or succeeds having also appended
the assistant message. -/
theorem ask_after_validation :
    ∀ (cfg : Config) (htc : Bool) (orc : Oracle) (now : Nat) (newId : String)
      (inp : AskInput) (store : List Conversation),
      pyStrip (inp.question.getD "") ≠ "" →
      truthyS cfg.PROJECT_ID = true →
      ((∃ st msg, (ask cfg htc orc now newId inp store).resp = .error st msg ∧
          (st = 500 ∨ st = 502) ∧
          (ask cfg htc orc now newId inp store).store =
            storeSet (get_or_create_conversation now newId inp.conversation_id store).2
              (add_message_to_conversation now
                (get_or_create_conversation now newId inp.conversation_id store).1
                "user" (pyStrip (inp.question.getD "")) none)) ∨
       (∃ answer citations, (ask cfg htc orc now newId inp store).resp =
          .success answer citations
            (add_message_to_conversation now
              (get_or_create_conversation now newId inp.conversation_id store).1
              "user" (pyStrip (inp.question.getD "")) none).id)) := by
  intro cfg htc orc now newId inp store hq hp
  unfold ask
  rw [if_neg hq, hp]
  simp only [Bool.not_true, Bool.false_eq_true, if_false]
  cases htc with
  | true =>
    rw [if_pos rfl]
    split
    · exact Or.inl ⟨500, _, rfl, Or.inl rfl, rfl⟩
    · exact Or.inr ⟨_, _, rfl⟩
  | false =>
    rw [if_neg (by simp)]
    split
    · exact Or.inl ⟨500, _, rfl, Or.inl rfl, rfl⟩
    · split
      · exact Or.inl ⟨500, _, rfl, Or.inl rfl, rfl⟩
      · split
        · exact Or.inl ⟨502, _, rfl, Or.inr rfl, rfl⟩
        · split
          · exact Or.inl ⟨500, _, rfl, Or.inl rfl, rfl⟩
          · exact Or.inr ⟨_, _, rfl⟩

/-- C10: when ask fails after validation passed, the store mutation is
not rolled back: the response status is 500 or 502 and the
got-or-created conversation is still in the final store with the user
message appended. -/
theorem C10_no_rollback_on_failure :
    ∀ (cfg : Config) (htc : Bool) (orc : Oracle) (now : Nat) (newId : String)
      (inp : AskInput) (store : List Conversation) (st : Nat) (msg : String),
      pyStrip (inp.question.getD "") ≠ "" →
      truthyS cfg.PROJECT_ID = true →
      (ask cfg htc orc now newId inp store).resp = .error st msg →
      (st = 500 ∨ st = 502) ∧
      storeLookup (get_or_create_conversation now newId inp.conversation_id store).1.id
          (ask cfg htc orc now newId inp store).store =
        some (add_message_to_conversation now
          (get_or_create_conversation now newId inp.conversation_id store).1
          "user" (pyStrip (inp.question.getD "")) none) := by
  intro cfg htc orc now newId inp store st msg hq hp herr
  rcases ask_after_validation cfg htc orc now newId inp store hq hp with
    ⟨st2, msg2, hresp, hst, hstore⟩ | ⟨answer, citations, hresp⟩
  · rw [herr] at hresp
    injection hresp with h1 h2
    subst h1
    refine ⟨hst, ?_⟩
    rw [hstore]
    exact storeLookup_storeSet_self
      (get_or_create_conversation now newId inp.conversation_id store).2
      (add_message_to_conversation now
        (get_or_create_conversation now newId inp.conversation_id store).1
        "user" (pyStrip (inp.question.getD "")) none)
      (get_or_create_id_mem now newId inp.conversation_id store)
  · rw [herr] at hresp
    cases hresp

/-- C10 witness: a typed-path call whose remote invocation raises; the
500 is returned and the user message is retained. -/
theorem C10_no_rollback_witness :
    ((500 : Nat) = 500 ∨ (500 : Nat) = 502) ∧
    storeLookup (get_or_create_conversation 0 "n" none []).1.id
        (ask noSourceCfg true raisingOracle 0 "n" ⟨some "q", none⟩ []).store =
      some (add_message_to_conversation 0 (get_or_create_conversation 0 "n" none []).1
        "user" (pyStrip ((some "q").getD "")) none) :=
  C10_no_rollback_on_failure noSourceCfg true raisingOracle
    0 "n" ⟨some "q", none⟩ [] 500 "boom" (by decide) rfl rfl

/-- Inserting into a sorted list is a permutation of consing. -/
theorem insertByUpdated_perm (c : Conversation) : ∀ l : List Conversation,
    List.Perm (insertByUpdated c l) (c :: l) := by
  intro l
  induction l with
  | nil => exact List.Perm.refl _
  | cons x xs ih =>
    unfold insertByUpdated
    split
    · exact List.Perm.refl _
    · exact (List.Perm.cons x ih).trans (List.Perm.swap c x xs)

/-- The stable sort by updated_at is a permutation of its input. -/
theorem sortByUpdated_perm : ∀ l : List Conversation, List.Perm (sortByUpdated l) l := by
  intro l
  induction l with
  | nil => exact List.Perm.refl _
  | cons x xs ih =>
    exact (insertByUpdated_perm x (sortByUpdated xs)).trans (List.Perm.cons x ih)

/-- Deleting, by id, each element of a subpermutation from a store with
distinct ids removes exactly one entry per deletion. -/
theorem eraseLoop_length : ∀ (l acc : List Conversation), (ids acc).Nodup → List.Subperm l acc →
    (l.foldl (fun a c => a.eraseP (fun x => x.id == c.id)) acc).length = acc.length - l.length := by
  intro l
  induction l with
  | nil => intro acc _ _; simp
  | cons c l ih =>
    intro acc hnd hsub
    have hc : c ∈ acc := hsub.subset (List.mem_cons_self c l)
    have hpc : ((fun x : Conversation => x.id == c.id) c) = true := by simp
    obtain ⟨a, l₁, l₂, hl1, hpa, hacc, herase⟩ :=
      @List.exists_of_eraseP Conversation (fun x : Conversation => x.id == c.id) acc c hc hpc
    have haid : a.id = c.id := by simpa using hpa
    have hca : c = a := by
      rcases List.mem_append.mp (hacc ▸ hc) with h1 | h2
      · exact absurd hpc (by simpa using hl1 c h1)
      · rcases List.mem_cons.mp h2 with h3 | h4
        · exact h3
        · exfalso
          have hnd2 : (ids acc).Nodup := hnd
          rw [hacc] at hnd2
          unfold ids at hnd2
          rw [List.map_append, List.map_cons] at hnd2
          have hnotin : a.id ∉ l₂.map Conversation.id :=
            (List.nodup_cons.mp (hnd2.of_append_right)).1
          exact hnotin (haid ▸ List.mem_map_of_mem Conversation.id h4)
    subst hca
    have hlen1 : (acc.eraseP (fun x : Conversation => x.id == c.id)).length + 1 = acc.length :=
      List.length_eraseP_add_one hc hpc
    have hnd1 : (ids (acc.eraseP (fun x : Conversation => x.id == c.id))).Nodup := by
      have hsubl : List.Sublist (acc.eraseP (fun x : Conversation => x.id == c.id)) acc :=
        List.eraseP_sublist acc
      exact List.Nodup.sublist (hsubl.map Conversation.id) hnd
    have hsub1 : List.Subperm l (acc.eraseP (fun x : Conversation => x.id == c.id)) := by
      have hmid : List.Perm acc (c :: (l₁ ++ l₂)) := by
        rw [hacc]
        exact List.perm_middle
      have : List.Subperm (c :: l) (c :: (l₁ ++ l₂)) := hsub.trans hmid.subperm
      rw [herase]
      exact (List.subperm_cons c).mp this
    rw [List.foldl_cons, ih _ hnd1 hsub1]
    rw [List.length_cons]
    omega

/-- After any cleanup pass the store holds at most MAX_CONVERSATIONS
entries (given distinct ids, as a dict guarantees). -/
theorem cleanup_length_le (now : Nat) (s : List Conversation) (h : (ids s).Nodup) :
    (cleanup_old_conversations now s).length ≤ MAX_CONVERSATIONS := by
  unfold cleanup_old_conversations
  dsimp only
  set s1 := s.filter (fun c => !(now - c.updated_at > CONVERSATION_TIMEOUT)) with hs1
  have hnd1 : (ids s1).Nodup :=
    List.Nodup.sublist ((List.filter_sublist s).map Conversation.id) h
  split
  · next hgt =>
    have hperm : List.Perm (sortByUpdated s1) s1 := sortByUpdated_perm s1
    have hsub : List.Subperm ((sortByUpdated s1).take (s1.length - MAX_CONVERSATIONS)) s1 :=
      ((List.take_sublist _ _).subperm).trans hperm.subperm
    rw [eraseLoop_length _ s1 hnd1 hsub]
    have htake : ((sortByUpdated s1).take (s1.length - MAX_CONVERSATIONS)).length
        = s1.length - MAX_CONVERSATIONS := by
      rw [List.length_take, hperm.length_eq]
      omega
    rw [htake]
    omega
  · next hle => omega

/-- The length of a dict write grows the store by at most one entry. -/
theorem storeInsert_length (s1 : List Conversation) (c : Conversation) :
    (storeInsert s1 c).length ≤ s1.length + 1 := by
  unfold storeInsert
  split
  · simp [storeSet]
  · simp

/-- After any get_or_create_conversation call the store holds at most
MAX_CONVERSATIONS + 1 entries: cleanup trims to capacity, then at most
one conversation is inserted. -/
theorem get_or_create_length_le (now : Nat) (newId : String) (cid : Option String)
    (s : List Conversation) (h : (ids s).Nodup) :
    ((get_or_create_conversation now newId cid s).2).length ≤ MAX_CONVERSATIONS + 1 := by
  have hclean := cleanup_length_le now s h
  have hcreate := storeInsert_length (cleanup_old_conversations now s)
    (⟨newId, [], now, now⟩ : Conversation)
  unfold get_or_create_conversation
  cases cid with
  | none =>
    show ((createConversation now newId (cleanup_old_conversations now s)).2).length ≤ _
    unfold createConversation
    dsimp only
    omega
  | some c =>
    dsimp only
    split
    · split
      · next conv hl =>
        dsimp only
        rw [show (storeSet (cleanup_old_conversations now s)
            { conv with updated_at := now }).length
            = (cleanup_old_conversations now s).length by simp [storeSet]]
        omega
      · unfold createConversation
        dsimp only
        omega
    · unfold createConversation
      dsimp only
      omega

/-- The fresh scenario ids are pairwise distinct. -/
theorem natId_inj : Function.Injective natId := by
  intro a b h
  have hlen := congrArg (fun s : String => s.data.length) h
  simpa [natId] using hlen

/-- Inserting a fresh conversation at time 0 into a store of n fresh
conversations (n at most capacity) evicts nothing and appends. -/
theorem get_or_create_fresh_append (n : Nat) (hn : n ≤ MAX_CONVERSATIONS) :
    (get_or_create_conversation 0 (natId n) none
        ((List.range n).map (fun i => ⟨natId i, [], 0, 0⟩))).2
      = (List.range n).map (fun i => (⟨natId i, [], 0, 0⟩ : Conversation))
        ++ [⟨natId n, [], 0, 0⟩] := by
  have hfilter : ((List.range n).map (fun i => (⟨natId i, [], 0, 0⟩ : Conversation))).filter
      (fun c => !(0 - c.updated_at > CONVERSATION_TIMEOUT)) =
      (List.range n).map (fun i => (⟨natId i, [], 0, 0⟩ : Conversation)) := by
    apply List.filter_eq_self.mpr
    intro a ha
    rcases List.mem_map.mp ha with ⟨i, _, rfl⟩
    rfl
  have hlen : ¬ (((List.range n).map
      (fun i => (⟨natId i, [], 0, 0⟩ : Conversation))).length > MAX_CONVERSATIONS) := by
    rw [List.length_map, List.length_range]
    omega
  have hmem : natId n ∉ ids ((List.range n).map (fun i => (⟨natId i, [], 0, 0⟩ : Conversation))) := by
    intro hm
    unfold ids at hm
    rw [List.map_map] at hm
    rcases List.mem_map.mp hm with ⟨i, hi, hid⟩
    have hin : i = n := natId_inj hid
    subst hin
    exact absurd (List.mem_range.mp hi) (lt_irrefl i)
  show (createConversation 0 (natId n)
      (cleanup_old_conversations 0 ((List.range n).map (fun i => ⟨natId i, [], 0, 0⟩)))).2 = _
  have hclean : cleanup_old_conversations 0 ((List.range n).map (fun i => ⟨natId i, [], 0, 0⟩))
      = (List.range n).map (fun i => (⟨natId i, [], 0, 0⟩ : Conversation)) := by
    unfold cleanup_old_conversations
    dsimp only
    rw [hfilter, if_neg hlen]
  rw [hclean]
  show storeInsert ((List.range n).map (fun i => ⟨natId i, [], 0, 0⟩))
      (⟨natId n, [], 0, 0⟩ : Conversation) = _
  unfold storeInsert
  rw [if_neg hmem]

/-- Inserting n fresh conversations (n at most capacity plus one)
yields exactly the n conversations, none evicted. -/
theorem insertN_spec : ∀ n, n ≤ MAX_CONVERSATIONS + 1 →
    insertN n = (List.range n).map (fun i => ⟨natId i, [], 0, 0⟩) := by
  intro n
  induction n with
  | zero => intro _; rfl
  | succ n ih =>
    intro hle
    have hn : n ≤ MAX_CONVERSATIONS := by omega
    unfold insertN
    rw [List.range_succ, List.foldl_append]
    have hbase : (List.range n).foldl
        (fun s i => (get_or_create_conversation 0 (natId i) none s).2) [] = insertN n := rfl
    rw [hbase, ih (by omega)]
    simp only [List.foldl_cons, List.foldl_nil]
    rw [get_or_create_fresh_append n hn]
    rw [List.map_append]
    rfl

/-- The store size after n fresh insertions is exactly n, for n up to
capacity plus one. -/
theorem insertN_length (n : Nat) (hn : n ≤ MAX_CONVERSATIONS + 1) : (insertN n).length = n := by
  rw [insertN_spec n hn, List.length_map, List.length_range]

/-- C3 counterexample: inserting MAX_CONVERSATIONS + 1 conversations
through get_or_create_conversation leaves MAX_CONVERSATIONS + 1 of them
present, not MAX_CONVERSATIONS: the cleanup pass runs before the
insertion, so the store exceeds capacity by one until the next call. -/
theorem C3_counterexample :
    (insertN (MAX_CONVERSATIONS + 1)).length = MAX_CONVERSATIONS + 1 ∧
    (insertN (MAX_CONVERSATIONS + 1)).length ≠ MAX_CONVERSATIONS := by
  have h := insertN_length (MAX_CONVERSATIONS + 1) (le_refl _)
  refine ⟨h, ?_⟩
  rw [h]
  exact Nat.succ_ne_self MAX_CONVERSATIONS

/-- C3 amended: after any get_or_create_conversation call the store
holds at most MAX_CONVERSATIONS + 1 entries; after the cleanup pass
itself it holds at most MAX_CONVERSATIONS; and inserting
MAX_CONVERSATIONS + 1 fresh conversations leaves all of them present
(eviction of the least-recently-updated one happens only on the next
cleanup pass). -/
theorem C3_store_bound :
    (∀ (now : Nat) (newId : String) (cid : Option String) (s : List Conversation),
      (ids s).Nodup →
      ((get_or_create_conversation now newId cid s).2).length ≤ MAX_CONVERSATIONS + 1) ∧
    (∀ (now : Nat) (s : List Conversation), (ids s).Nodup →
      (cleanup_old_conversations now s).length ≤ MAX_CONVERSATIONS) ∧
    (insertN (MAX_CONVERSATIONS + 1)).length = MAX_CONVERSATIONS + 1 :=
  ⟨fun now newId cid s h => get_or_create_length_le now newId cid s h,
   fun now s h => cleanup_length_le now s h,
   insertN_length (MAX_CONVERSATIONS + 1) (le_refl _)⟩

/-- C3 witness: the get_or_create bound applied to the empty store. -/
theorem C3_store_bound_witness :
    ((get_or_create_conversation 0 "a" none []).2).length ≤ MAX_CONVERSATIONS + 1 :=
  C3_store_bound.1 0 "a" none [] (by simp [ids])

/-- C9, handler half: the health handler body returns 200 with status
ok for every configuration, including a missing one, touching neither
the store nor the remote service.  The reachability half of the claim
fails outside this embedding: module initialization of app.py (line 69)
is not executable, so no request handler is ever reached. -/
theorem C9_health_handler_ok :
    ∀ (cfg : Config) (s : List Conversation),
      (health cfg s).1 = (200, ⟨"ok"⟩) ∧ (health cfg s).2 = s :=
  fun cfg s => ⟨rfl, rfl⟩
